import Mathlib

/-!
Verification of the agricultural-transport tracking program (fiap.py).

The embedding translates the program's data model and operations:
product and vehicle rows as they come back from the record store
(`SELECT *` tuples, with the SIM/NAO string-encoded booleans the
registration functions write), the compatibility matcher
`comparar_veiculo` and its per-vehicle loop, the yes/no prompt
`perguntar_sim_nao`, the JSON export `salvar_dados_produtos_json`,
the vehicle registration `dados_coletados_transporte`, and the menu
dispatcher `opcao_escolhida`.

Numeric conventions: Python ints are `Int`, Python floats (the
temperatures; only compared, never computed with) are `ℚ`.
Interactive `input()` streams are explicit `List String` / parsed
arguments; a loop that re-prompts until the stream is exhausted
returns `Option`/a `blocked` status when the finite modelled stream
runs out.
-/

/-- A row of `transporte_agricola_produtos` as returned by
`consultar_produtos` (fetchall tuple order: id, produto, quantidade,
origem, destino, temperatura_minima, temperatura_maxima, ventilacao,
protecao_solar).  The two flags are the literal strings written by
`dados_coletados_produtos` (normally "SIM"/"NAO"). -/
structure ProdutoRow where
  id_produto : Nat
  produto : String
  quantidade : Int
  origem : String
  destino : String
  temperatura_minima : ℚ
  temperatura_maxima : ℚ
  ventilacao : String
  protecao_solar : String
deriving DecidableEq, Repr

/-- A row of `transporte_agricola_veiculos` as returned by
`consultar_veiculos` (tuple order: id, capacidade, temperatura,
ventilacao, protecao_solar). -/
structure VeiculoRow where
  id_veiculo : Nat
  capacidade : Int
  temperatura : ℚ
  ventilacao : String
  protecao_solar : String
deriving DecidableEq, Repr

/-- fiap.py line 221: `capacidade_ok = produto_quantidade <= veiculo['capacidade']`. -/
def capacidade_ok (p : ProdutoRow) (v : VeiculoRow) : Bool :=
  decide (p.quantidade ≤ v.capacidade)

/-- fiap.py line 222:
`temperatura_ok = temperatura_minima <= veiculo['temperatura'] <= temperatura_maxima`
(Python chained comparison: both inequalities, inclusive). -/
def temperatura_ok (p : ProdutoRow) (v : VeiculoRow) : Bool :=
  decide (p.temperatura_minima ≤ v.temperatura) && decide (v.temperatura ≤ p.temperatura_maxima)

/-- fiap.py line 223: `ventilacao_ok = (ventilacao_produto == 'SIM' and
veiculo['ventilacao'] == 'SIM') or (ventilacao_produto == 'NAO' and
veiculo['ventilacao'] == 'NAO')`. -/
def ventilacao_ok (p : ProdutoRow) (v : VeiculoRow) : Bool :=
  (p.ventilacao == "SIM" && v.ventilacao == "SIM")
    || (p.ventilacao == "NAO" && v.ventilacao == "NAO")

/-- fiap.py line 224: same shape as `ventilacao_ok`, over the sun-protection flags. -/
def protecao_solar_ok (p : ProdutoRow) (v : VeiculoRow) : Bool :=
  (p.protecao_solar == "SIM" && v.protecao_solar == "SIM")
    || (p.protecao_solar == "NAO" && v.protecao_solar == "NAO")

/-- fiap.py line 226: the conjunction guarding the `return True` inside the loop. -/
def compativel (p : ProdutoRow) (v : VeiculoRow) : Bool :=
  capacidade_ok p v && temperatura_ok p v && ventilacao_ok p v && protecao_solar_ok p v

/-- fiap.py lines 220-232: the `for idx, veiculo in veiculo_df.iterrows()`
loop of `comparar_veiculo`.  It walks the vehicles in store-return order
and returns at the first one satisfying all four predicates; falling off
the end is the "no match" outcome (lines 234-237). -/
def comparar_loop (p : ProdutoRow) : List VeiculoRow → Option VeiculoRow
  | [] => none
  | v :: rest => if compativel p v then some v else comparar_loop p rest

/-- Python `str.isdigit()` on the id the user types: non-empty and all digits. -/
def pyIsDigit (s : String) : Bool :=
  !s.data.isEmpty && s.data.all Char.isDigit

/-- Value of Python `int(s)` on an all-digit string. -/
def strDigitsToNat (s : String) : Nat :=
  s.data.foldl (fun acc c => acc * 10 + (c.toNat - 48)) 0

/-- fiap.py line 213 guard `id_produto.isdigit()` followed by `int(id_produto)`:
parse the typed id, `none` when it is not a digit string. -/
def parsePyDigits (s : String) : Option Nat :=
  if pyIsDigit s then some (strDigitsToNat s) else none

/-- fiap.py lines 253-255 (`consultar_veiculos`): `cursor.fetchall()` over the
vehicle table.  `fetchall` returns the list of rows — an empty list when the
table is empty, never `None` — so the result is always `some`. -/
def consultar_veiculos_result (db : List VeiculoRow) : Option (List VeiculoRow) :=
  some db

/-- The observable outcomes of one entry into `comparar_veiculo`
(fiap.py lines 190-244). -/
inductive CompararOutcome where
  /-- line 200: `print('Não há veículos para comparação.')` then bare `return`. -/
  | nothingToCompare : CompararOutcome
  /-- lines 206-208: `listar_produtos` returned `None` (empty product table). -/
  | noProducts : CompararOutcome
  /-- lines 227-232: a compatible vehicle was announced and `True` returned. -/
  | matched : VeiculoRow → CompararOutcome
  /-- lines 234-237: the "Nenhum veículo disponível atende todas as condições"
  message, vehicles re-listed, `False` returned. -/
  | noMatch : CompararOutcome
  /-- lines 239-241: "Produto com ID ... não encontrado.", then the recursive
  `return comparar_veiculo()` re-lists and re-prompts. -/
  | notFoundRetry : CompararOutcome
deriving DecidableEq, Repr

/-- fiap.py lines 190-244 (`comparar_veiculo`), one entry with the given
store contents and one typed product id.  Mirrors the source order:
fetch vehicles and test the fetch result against `None` (lines 197-201),
list products and bail out when there are none (lines 205-208), parse the
id and test membership in the product index (line 213), look the product
up (lines 214-218: `.loc[int(id_produto), ...]`, the row with that id),
then run the per-vehicle loop. -/
def comparar_veiculo_run (produtos : List ProdutoRow) (veiculos_db : List VeiculoRow)
    (id_input : String) : CompararOutcome :=
  match consultar_veiculos_result veiculos_db with
  | none => CompararOutcome.nothingToCompare
  | some veiculos =>
    if produtos.isEmpty then CompararOutcome.noProducts
    else
      match parsePyDigits id_input with
      | some n =>
        if (produtos.map (fun p => p.id_produto)).contains n then
          match produtos.find? (fun p => p.id_produto == n) with
          | some prod =>
            match comparar_loop prod veiculos with
            | some v => CompararOutcome.matched v
            | none => CompararOutcome.noMatch
          | none => CompararOutcome.notFoundRetry
        else CompararOutcome.notFoundRetry
      | none => CompararOutcome.notFoundRetry

/-- fiap.py line 59: Python `str.lower()` restricted to the characters this
program ever prompts about (ASCII letters and the tilde vowels of
'não'/'NÃO'); Python's lower is Unicode-aware, `Char.toLower` is ASCII-only,
so the tilde capitals are mapped explicitly. -/
def pyLowerChar (c : Char) : Char :=
  if c = 'Ã' then 'ã' else if c = 'Õ' then 'õ' else c.toLower

/-- Python `str.lower()` over the whole string (see `pyLowerChar`). -/
def pyLower (s : String) : String :=
  ⟨s.data.map pyLowerChar⟩

/-- fiap.py lines 48-63 (`perguntar_sim_nao`): lower-case the answer, accept
exactly the members of `['sim', 'não', 'nao']`, answer `resposta == 'sim'`;
otherwise print the reminder and loop.  The infinite re-prompt loop is run
on a finite stream of typed answers; `none` means every answer in the
stream was rejected and the program is still waiting. -/
def perguntar_sim_nao : List String → Option Bool
  | [] => none
  | r :: rest =>
    let resposta := pyLower r
    if ["sim", "não", "nao"].contains resposta then some (resposta == "sim")
    else perguntar_sim_nao rest

/-- An answer string the prompt accepts (its lowered form is one of the
three recognized words). -/
def aceita_resposta (s : String) : Bool :=
  ["sim", "não", "nao"].contains (pyLower s)

/-- fiap.py lines 29-46 (`validar_positivo`): answers `true` when the number
is INVALID (the `numero <= 0` branch raises and is caught, printing the
error and making the caller re-prompt). -/
def validar_positivo (numero : Int) : Bool :=
  decide (numero ≤ 0)

/-- The record built and inserted by `dados_coletados_transporte`. -/
structure DadosTransporte where
  capacidade : Int
  temperatura : ℚ
  ventilacao : String
  protecao_solar : String
deriving DecidableEq, Repr

/-- fiap.py lines 120-158 (`dados_coletados_transporte`): the `while True`
loop re-prompts only while `int(...)`/`float(...)` raise `ValueError`; its
arguments here are the successfully parsed values of the final iteration.
The body applies NO further check to `capacidade` (contrast
`dados_coletados_produtos`, which runs `validar_positivo` on `quantidade`
at line 84) and builds the dict inserted into
`transporte_agricola_veiculos` (lines 139-150). -/
def dados_coletados_transporte (capacidade : Int) (temperatura : ℚ)
    (ventilacao protecao_solar : Bool) : DadosTransporte :=
  ⟨capacidade, temperatura,
    if ventilacao then "SIM" else "NAO",
    if protecao_solar then "SIM" else "NAO"⟩

/-- The JSON object written by `salvar_dados_produtos_json` (fiap.py lines
395-405): keys id_produto, produto, quantidade, origem, destino,
temperatura_minima, temperatura_maxima, ventilacao, protecao_solar. -/
structure DadosProduto where
  id_produto : Nat
  produto : String
  quantidade : Int
  origem : String
  destino : String
  temperatura_minima : ℚ
  temperatura_maxima : ℚ
  ventilacao : String
  protecao_solar : String
deriving DecidableEq, Repr

/-- fiap.py lines 380-413 (`salvar_dados_produtos_json`): list the products
(empty table → "Não há produtos para salvar", `none`), read an id, check
`id.isdigit() and int(id) in [p[0] for p in produtos]`, take
`[p for p in produtos if p[0] == int(id)][0]` and serialize its nine fields
in order.  `none` also stands for the "ID do produto inválido" branch. -/
def salvar_dados_produtos_json (produtos : List ProdutoRow) (id_input : String) :
    Option DadosProduto :=
  if produtos.isEmpty then none
  else
    match parsePyDigits id_input with
    | some n =>
      if (produtos.map (fun p => p.id_produto)).contains n then
        match produtos.find? (fun p => p.id_produto == n) with
        | some p =>
          some ⟨p.id_produto, p.produto, p.quantidade, p.origem, p.destino,
            p.temperatura_minima, p.temperatura_maxima, p.ventilacao, p.protecao_solar⟩
        | none => none
      else none
    | none => none

/-- How control can leave the dispatcher `opcao_escolhida`
(fiap.py lines 318-356). -/
inductive DispStatus where
  /-- case 7 runs `sair()`, whose `exit(0)` terminates the whole process
  (lines 305-316). -/
  | exited : DispStatus
  /-- the modelled finite stream of menu choices ran out while the
  `while True` loop was waiting for more input. -/
  | blocked : DispStatus
  /-- a normal `return` from `opcao_escolhida` — the source body contains
  no `return` and no `break`, so no equation below ever produces this. -/
  | returned : DispStatus
deriving DecidableEq, Repr

/-- fiap.py lines 318-356 (`opcao_escolhida`): `while True` dispatch on the
current choice.  Case 7 calls `sair()` and the process exits; every other
case performs its action (side effects not modelled here) and then takes
the next validated choice from `menu()`.  The loop body has no `break` or
`return`. -/
def opcao_escolhida_run (escolha : Nat) (inputs : List Nat) : DispStatus :=
  if escolha = 7 then DispStatus.exited
  else
    match inputs with
    | [] => DispStatus.blocked
    | c :: rest => opcao_escolhida_run c rest

/-- fiap.py lines 482-484: `dados_coletados_produtos()` on line 484 runs
exactly when the `opcao_escolhida(escolha)` call on line 483 returns
normally. -/
def registration_reached (escolha : Nat) (inputs : List Nat) : Bool :=
  match opcao_escolhida_run escolha inputs with
  | DispStatus.returned => true
  | _ => false

/-! ### Helper lemmas -/

lemma comparar_loop_some_compativel (p : ProdutoRow) :
    ∀ (vs : List VeiculoRow) (v : VeiculoRow),
      comparar_loop p vs = some v → compativel p v = true := by
  intro vs
  induction vs with
  | nil => intro v hv; simp [comparar_loop] at hv
  | cons u rest ih =>
    intro v hv
    by_cases hu : compativel p u = true
    · simp [comparar_loop, hu] at hv
      subst hv
      exact hu
    · simp only [Bool.not_eq_true] at hu
      simp [comparar_loop, hu] at hv
      exact ih v hv

lemma comparar_loop_append (p : ProdutoRow) (l1 l2 : List VeiculoRow)
    (h : ∀ u ∈ l1, compativel p u = false) :
    comparar_loop p (l1 ++ l2) = comparar_loop p l2 := by
  induction l1 with
  | nil => rfl
  | cons u rest ih =>
    have hu : compativel p u = false := h u (by simp)
    simp only [List.cons_append, comparar_loop, hu, if_neg Bool.false_ne_true]
    exact ih (fun w hw => h w (by simp [hw]))

lemma comparar_loop_none_iff (p : ProdutoRow) (vs : List VeiculoRow) :
    comparar_loop p vs = none ↔ ∀ v ∈ vs, compativel p v = false := by
  induction vs with
  | nil => simp [comparar_loop]
  | cons u rest ih =>
    by_cases hu : compativel p u = true
    · simp [comparar_loop, hu]
    · simp only [Bool.not_eq_true] at hu
      simp [comparar_loop, hu, ih]

/-- Claim C1: the per-vehicle loop of `comparar_veiculo` returns a vehicle only
if that vehicle passes all four checks (capacity, inclusive temperature range,
equal ventilation flag, equal sun-protection flag); it returns the first such
vehicle in the supplied order; and it reports no match exactly when no supplied
vehicle passes all four. -/
theorem comparar_loop_first_match (p : ProdutoRow) (vs : List VeiculoRow) :
    (∀ v, comparar_loop p vs = some v →
      capacidade_ok p v = true ∧ temperatura_ok p v = true ∧
        ventilacao_ok p v = true ∧ protecao_solar_ok p v = true)
    ∧ (comparar_loop p vs = none ↔ ∀ v ∈ vs, compativel p v = false)
    ∧ (∀ l1 v l2, vs = l1 ++ v :: l2 → (∀ u ∈ l1, compativel p u = false) →
        compativel p v = true → comparar_loop p vs = some v) := by
  refine ⟨?_, comparar_loop_none_iff p vs, ?_⟩
  · intro v hv
    have hc := comparar_loop_some_compativel p vs v hv
    simpa [compativel, Bool.and_eq_true, and_assoc] using hc
  · intro l1 v l2 hvs h1 hv
    subst hvs
    rw [comparar_loop_append p l1 _ h1]
    simp [comparar_loop, hv]

theorem comparar_loop_first_match_witness :
    comparar_loop ⟨1, "Soja", 100, "Campinas", "Santos", 2, 8, "SIM", "NAO"⟩
        [⟨1, 50, 5, "SIM", "NAO"⟩, ⟨2, 150, 5, "SIM", "NAO"⟩]
      = some ⟨2, 150, 5, "SIM", "NAO"⟩ :=
  (comparar_loop_first_match ⟨1, "Soja", 100, "Campinas", "Santos", 2, 8, "SIM", "NAO"⟩
      [⟨1, 50, 5, "SIM", "NAO"⟩, ⟨2, 150, 5, "SIM", "NAO"⟩]).2.2
    [⟨1, 50, 5, "SIM", "NAO"⟩] ⟨2, 150, 5, "SIM", "NAO"⟩ [] rfl (by decide) (by decide)

/-- Claim C2 (code bug): with zero vehicles registered, one registered product
and a valid product id typed, `comparar_veiculo` does NOT report "nothing to
compare": `fetchall` returns the empty list rather than `None`, so the
`if veiculos is None` guard of lines 198-201 never fires and the run falls
through to the matcher, ending in the ordinary "no compatible vehicle"
outcome. -/
theorem comparar_empty_veiculos_eval :
    comparar_veiculo_run [⟨1, "Milho", 100, "Campinas", "Santos", 2, 8, "SIM", "NAO"⟩] [] "1"
        = CompararOutcome.noMatch
    ∧ CompararOutcome.noMatch ≠ CompararOutcome.nothingToCompare := by
  decide

/-- Claim C3: an id that does not parse as digits or does not belong to a
registered product drives `comparar_veiculo` into the NotFound branch
(message, re-list, re-prompt via the recursive call), an outcome distinct
from the "no compatible vehicle" one. -/
theorem comparar_unknown_id_distinct (produtos : List ProdutoRow)
    (veiculos : List VeiculoRow) (s : String)
    (hne : produtos.isEmpty = false)
    (hunk : ∀ n, parsePyDigits s = some n →
      (produtos.map (fun p => p.id_produto)).contains n = false) :
    comparar_veiculo_run produtos veiculos s = CompararOutcome.notFoundRetry
    ∧ CompararOutcome.notFoundRetry ≠ CompararOutcome.noMatch := by
  refine ⟨?_, by decide⟩
  unfold comparar_veiculo_run consultar_veiculos_result
  cases hp : parsePyDigits s with
  | none => simp [hne, hp]
  | some n =>
    have hc := hunk n hp
    simp [hne, hp, hc]
    intro x hx hxn
    exfalso
    simp at hc
    exact absurd hxn (hc x hx)

theorem comparar_unknown_id_distinct_witness :
    comparar_veiculo_run [⟨1, "Milho", 100, "Campinas", "Santos", 2, 8, "SIM", "NAO"⟩] [] "99"
        = CompararOutcome.notFoundRetry
    ∧ CompararOutcome.notFoundRetry ≠ CompararOutcome.noMatch :=
  comparar_unknown_id_distinct
    [⟨1, "Milho", 100, "Campinas", "Santos", 2, 8, "SIM", "NAO"⟩] [] "99" (by decide)
    (fun n hn => by
      have h99 : parsePyDigits "99" = some 99 := by decide
      rw [h99] at hn
      obtain rfl : (99 : Nat) = n := Option.some.inj hn
      decide)

/-- Claim C4: for a product whose recommended range is well-formed
(minimum ≤ maximum, as the data model states), a vehicle that passes the
capacity, ventilation and sun-protection checks and whose temperature equals
either endpoint of the range is judged compatible: the chained comparison of
line 222 is inclusive at both ends. -/
theorem temperatura_boundary_inclusive (p : ProdutoRow) (v : VeiculoRow)
    (hwf : p.temperatura_minima ≤ p.temperatura_maxima)
    (hcap : capacidade_ok p v = true)
    (hvent : ventilacao_ok p v = true)
    (hprot : protecao_solar_ok p v = true)
    (htemp : v.temperatura = p.temperatura_minima ∨ v.temperatura = p.temperatura_maxima) :
    compativel p v = true := by
  have ht : temperatura_ok p v = true := by
    rcases htemp with h | h <;> simp [temperatura_ok, h, hwf]
  simp [compativel, hcap, ht, hvent, hprot]

theorem temperatura_boundary_inclusive_witness :
    compativel ⟨1, "Uva", 100, "Campinas", "Santos", 2, 8, "SIM", "NAO"⟩
        ⟨1, 150, 2, "SIM", "NAO"⟩ = true
    ∧ compativel ⟨1, "Uva", 100, "Campinas", "Santos", 2, 8, "SIM", "NAO"⟩
        ⟨2, 150, 8, "SIM", "NAO"⟩ = true :=
  ⟨temperatura_boundary_inclusive _ _ (by decide) (by decide) (by decide) (by decide)
      (Or.inl (by decide)),
    temperatura_boundary_inclusive _ _ (by decide) (by decide) (by decide) (by decide)
      (Or.inr (by decide))⟩

/-- Claim C5: on the concrete product (quantity 100, range [2, 8], ventilation
required, no sun protection) and the two-vehicle list whose first vehicle has
capacity 50 and whose second has capacity 150, temperature 5, ventilation and
no sun protection, the matcher loop returns the second vehicle. -/
theorem comparar_c5_concrete :
    comparar_loop ⟨1, "Produto", 100, "Origem", "Destino", 2, 8, "SIM", "NAO"⟩
        [⟨1, 50, 5, "SIM", "NAO"⟩, ⟨2, 150, 5, "SIM", "NAO"⟩]
      = some ⟨2, 150, 5, "SIM", "NAO"⟩ := by
  decide

/-- Claim C7: a product whose minimum temperature exceeds its maximum can match
no vehicle at all: the chained comparison of line 222 would force
minimum ≤ maximum, so every vehicle fails it and the loop reports no match. -/
theorem min_gt_max_no_match (p : ProdutoRow) (vs : List VeiculoRow)
    (h : p.temperatura_maxima < p.temperatura_minima) :
    comparar_loop p vs = none := by
  induction vs with
  | nil => rfl
  | cons v rest ih =>
    have ht : temperatura_ok p v = false := by
      cases htv : temperatura_ok p v with
      | false => rfl
      | true =>
        exfalso
        simp only [temperatura_ok, Bool.and_eq_true, decide_eq_true_eq] at htv
        exact absurd (le_trans htv.1 htv.2) (not_le.mpr h)
    have hv : compativel p v = false := by
      simp [compativel, ht]
    simp [comparar_loop, hv, ih]

theorem min_gt_max_no_match_witness :
    comparar_loop ⟨1, "Cacau", 100, "Campinas", "Santos", 8, 2, "SIM", "NAO"⟩
        [⟨1, 150, 5, "SIM", "NAO"⟩] = none :=
  min_gt_max_no_match ⟨1, "Cacau", 100, "Campinas", "Santos", 8, 2, "SIM", "NAO"⟩
    [⟨1, 150, 5, "SIM", "NAO"⟩] (by decide)

/-- Claim C6 (code bug): `dados_coletados_transporte` never validates the
parsed capacity — its retry loop only guards the `int`/`float` conversions —
so a run typing capacity -5 completes and inserts a record whose capacity is
-5, which the program's own `validar_positivo` classifies as invalid. -/
theorem transporte_capacidade_not_validated :
    (dados_coletados_transporte (-5) 3 true false).capacidade = -5
    ∧ validar_positivo (-5) = true
    ∧ ¬(0 < (dados_coletados_transporte (-5) 3 true false).capacidade) := by
  decide

/-- Claim C8: whenever `salvar_dados_produtos_json` writes a JSON object, that
object's nine fields are exactly the fields of a stored product row (the one
selected by the typed id); and a digit id present among the stored ids always
produces an object. -/
theorem salvar_produtos_roundtrip (produtos : List ProdutoRow) (s : String) :
    (∀ e, salvar_dados_produtos_json produtos s = some e →
      ∃ p, p ∈ produtos ∧ e.id_produto = p.id_produto ∧ e.produto = p.produto ∧
        e.quantidade = p.quantidade ∧ e.origem = p.origem ∧ e.destino = p.destino ∧
        e.temperatura_minima = p.temperatura_minima ∧
        e.temperatura_maxima = p.temperatura_maxima ∧
        e.ventilacao = p.ventilacao ∧ e.protecao_solar = p.protecao_solar)
    ∧ (∀ n, parsePyDigits s = some n →
        (produtos.map (fun p => p.id_produto)).contains n = true →
        produtos.isEmpty = false →
        (salvar_dados_produtos_json produtos s).isSome = true) := by
  constructor
  · intro e he
    unfold salvar_dados_produtos_json at he
    by_cases hempty : produtos.isEmpty = true
    · simp [hempty] at he
    · rw [if_neg hempty] at he
      cases hp : parsePyDigits s with
      | none => rw [hp] at he; exact Option.noConfusion he
      | some n =>
        rw [hp] at he
        dsimp only at he
        by_cases hc : (produtos.map (fun p => p.id_produto)).contains n = true
        · rw [if_pos hc] at he
          cases hf : produtos.find? (fun p => p.id_produto == n) with
          | none => rw [hf] at he; exact Option.noConfusion he
          | some p =>
            rw [hf] at he
            obtain rfl := Option.some.inj he
            exact ⟨p, List.mem_of_find?_eq_some hf, rfl, rfl, rfl, rfl, rfl, rfl, rfl, rfl, rfl⟩
        · rw [if_neg hc] at he; exact Option.noConfusion he
  · intro n hp hc hne
    unfold salvar_dados_produtos_json
    rw [if_neg (by simp [hne])]
    rw [hp]
    dsimp only
    rw [if_pos hc]
    cases hf : produtos.find? (fun p => p.id_produto == n) with
    | some p => simp
    | none =>
      exfalso
      rw [List.find?_eq_none] at hf
      simp at hc
      obtain ⟨x, hx, hxn⟩ := hc
      exact hf x hx (by simp [hxn])

theorem salvar_produtos_roundtrip_witness :
    ∃ p, p ∈ [(⟨1, "Milho", 100, "Campinas", "Santos", 2, 8, "SIM", "NAO"⟩ : ProdutoRow)] ∧
      (⟨1, "Milho", 100, "Campinas", "Santos", 2, 8, "SIM", "NAO"⟩ : DadosProduto).id_produto
          = p.id_produto ∧
      (⟨1, "Milho", 100, "Campinas", "Santos", 2, 8, "SIM", "NAO"⟩ : DadosProduto).produto
          = p.produto ∧
      (⟨1, "Milho", 100, "Campinas", "Santos", 2, 8, "SIM", "NAO"⟩ : DadosProduto).quantidade
          = p.quantidade ∧
      (⟨1, "Milho", 100, "Campinas", "Santos", 2, 8, "SIM", "NAO"⟩ : DadosProduto).origem
          = p.origem ∧
      (⟨1, "Milho", 100, "Campinas", "Santos", 2, 8, "SIM", "NAO"⟩ : DadosProduto).destino
          = p.destino ∧
      (⟨1, "Milho", 100, "Campinas", "Santos", 2, 8, "SIM", "NAO"⟩ : DadosProduto).temperatura_minima
          = p.temperatura_minima ∧
      (⟨1, "Milho", 100, "Campinas", "Santos", 2, 8, "SIM", "NAO"⟩ : DadosProduto).temperatura_maxima
          = p.temperatura_maxima ∧
      (⟨1, "Milho", 100, "Campinas", "Santos", 2, 8, "SIM", "NAO"⟩ : DadosProduto).ventilacao
          = p.ventilacao ∧
      (⟨1, "Milho", 100, "Campinas", "Santos", 2, 8, "SIM", "NAO"⟩ : DadosProduto).protecao_solar
          = p.protecao_solar :=
  (salvar_produtos_roundtrip [⟨1, "Milho", 100, "Campinas", "Santos", 2, 8, "SIM", "NAO"⟩] "1").1
    ⟨1, "Milho", 100, "Campinas", "Santos", 2, 8, "SIM", "NAO"⟩ (by decide)

lemma perguntar_sim_nao_none_iff :
    ∀ inputs : List String,
      perguntar_sim_nao inputs = none ↔ ∀ r ∈ inputs, aceita_resposta r = false := by
  intro inputs
  induction inputs with
  | nil => simp [perguntar_sim_nao]
  | cons r rest ih =>
    by_cases hr : aceita_resposta r = true
    · have hcond : ["sim", "não", "nao"].contains (pyLower r) = true := hr
      have hstep : perguntar_sim_nao (r :: rest) = some (pyLower r == "sim") := by
        simp only [perguntar_sim_nao, hcond]
        simp
      refine iff_of_false (by simp [hstep]) ?_
      intro hall
      exact absurd (hall r (by simp)) (by simp [hr])
    · have hrf : aceita_resposta r = false := by
        cases h : aceita_resposta r
        · rfl
        · exact absurd h hr
      have hcond : ["sim", "não", "nao"].contains (pyLower r) = false := hrf
      have hstep : perguntar_sim_nao (r :: rest) = perguntar_sim_nao rest := by
        simp only [perguntar_sim_nao, hcond]
        simp
      rw [hstep, ih]
      constructor
      · intro hall w hw
        rcases List.mem_cons.mp hw with rfl | hw2
        · exact hrf
        · exact hall w hw2
      · intro hall w hw
        exact hall w (by simp [hw])

lemma perguntar_sim_nao_append (l1 l2 : List String)
    (h : ∀ r ∈ l1, aceita_resposta r = false) :
    perguntar_sim_nao (l1 ++ l2) = perguntar_sim_nao l2 := by
  induction l1 with
  | nil => rfl
  | cons r rest ih =>
    have hcond : ["sim", "não", "nao"].contains (pyLower r) = false := h r (by simp)
    simp only [List.cons_append, perguntar_sim_nao, hcond, if_neg Bool.false_ne_true]
    exact ih (fun w hw => h w (by simp [hw]))

lemma perguntar_sim_nao_some :
    ∀ (inputs : List String) (b : Bool), perguntar_sim_nao inputs = some b →
      ∃ r, r ∈ inputs ∧ aceita_resposta r = true ∧ b = (pyLower r == "sim") := by
  intro inputs
  induction inputs with
  | nil => intro b hb; simp [perguntar_sim_nao] at hb
  | cons r rest ih =>
    intro b hb
    by_cases hr : aceita_resposta r = true
    · have hcond : ["sim", "não", "nao"].contains (pyLower r) = true := hr
      simp only [perguntar_sim_nao, hcond, if_pos rfl] at hb
      exact ⟨r, by simp, hr, (Option.some.inj hb).symm⟩
    · have hrf : aceita_resposta r = false := by
        cases h : aceita_resposta r
        · rfl
        · exact absurd h hr
      have hcond : ["sim", "não", "nao"].contains (pyLower r) = false := hrf
      simp only [perguntar_sim_nao, hcond, if_neg Bool.false_ne_true] at hb
      obtain ⟨w, hw, ha, hbw⟩ := ih b hb
      exact ⟨w, by simp [hw], ha, hbw⟩

/-- Claim C9 counterexample: the prompt accepts the input "SIM" (answering
yes), although "SIM" is none of the three literal words the claim says are
the only accepted inputs — line 59 lower-cases the answer first. -/
theorem perguntar_sim_nao_cex :
    perguntar_sim_nao ["SIM"] = some true
    ∧ ¬("SIM" = "sim" ∨ "SIM" = "não" ∨ "SIM" = "nao") := by
  decide

/-- Claim C9 amended: the prompt accepts exactly the inputs whose lower-cased
form is "sim", "não" or "nao", re-prompts through every other input (`none`
when the finite answer stream holds no accepted word), answers `true` exactly
when the accepted word lower-cases to "sim", and stops at the first accepted
word of the stream. -/
theorem perguntar_sim_nao_spec (inputs : List String) :
    (perguntar_sim_nao inputs = none ↔ ∀ r ∈ inputs, aceita_resposta r = false)
    ∧ (∀ b, perguntar_sim_nao inputs = some b →
        ∃ r, r ∈ inputs ∧ aceita_resposta r = true ∧ b = (pyLower r == "sim"))
    ∧ (∀ l1 x l2, inputs = l1 ++ x :: l2 → (∀ r ∈ l1, aceita_resposta r = false) →
        aceita_resposta x = true →
        perguntar_sim_nao inputs = some (pyLower x == "sim")) := by
  refine ⟨perguntar_sim_nao_none_iff inputs, perguntar_sim_nao_some inputs, ?_⟩
  intro l1 x l2 hin h1 hx
  subst hin
  rw [perguntar_sim_nao_append l1 _ h1]
  have hcond : ["sim", "não", "nao"].contains (pyLower x) = true := hx
  simp only [perguntar_sim_nao, hcond]
  simp

theorem perguntar_sim_nao_spec_witness :
    perguntar_sim_nao ["talvez", "Sim"] = some (pyLower "Sim" == "sim") :=
  (perguntar_sim_nao_spec ["talvez", "Sim"]).2.2 ["talvez"] "Sim" [] rfl
    (by decide) (by decide)

lemma opcao_escolhida_run_cases :
    ∀ (inputs : List Nat) (escolha : Nat),
      opcao_escolhida_run escolha inputs = DispStatus.exited ∨
        opcao_escolhida_run escolha inputs = DispStatus.blocked := by
  intro inputs
  induction inputs with
  | nil =>
    intro escolha
    by_cases h : escolha = 7 <;> simp [opcao_escolhida_run, h]
  | cons c rest ih =>
    intro escolha
    by_cases h : escolha = 7
    · simp [opcao_escolhida_run, h]
    · simp only [opcao_escolhida_run, h, if_false]
      exact ih c

/-- Claim C10 counterexample: in the execution whose first validated menu
choice is 7, the dispatcher ends by exiting the process (`sair`'s `exit(0)`),
and the `dados_coletados_produtos()` call placed after the dispatcher call
is not executed — the claim's "executed in every execution" fails here. -/
theorem registration_after_dispatcher_cex :
    opcao_escolhida_run 7 [] = DispStatus.exited
    ∧ registration_reached 7 [] = false := by
  decide

/-- Claim C10 amended: the product-registration call placed after the
dispatcher call is dead code — `opcao_escolhida` never returns normally
(its loop has no break or return; option 7 terminates the whole process),
so no execution reaches the registration call on line 484. -/
theorem registration_never_reached (escolha : Nat) (inputs : List Nat) :
    registration_reached escolha inputs = false := by
  rcases opcao_escolhida_run_cases inputs escolha with h | h <;>
    simp [registration_reached, h]
